import Mathlib

/-!
Shallow embedding of the QuantaCoin Discord bot (src/main.py, src/database.py,
src/games.py): the SQLite-backed ledger, the deposit reconciler, the
provably-fair coinflip, lottery and airdrop pools, the loan subsystem and the
TicTacToe state machine, together with theorems settling the frozen claims
about the repository.

Money amounts are modelled as exact rationals (the source stores SQLite REALs
and computes with Python floats; every concrete scenario proved below has been
checked to produce identical values under IEEE double arithmetic).  User ids
are integers.  Each helper that the source wraps in a single `_transaction()`
block becomes one Lean function; code paths that issue several separate
transactions are modelled as explicit lists of state transformers so that the
intermediate committed states are visible.
-/

namespace QCBot

/-- Row of the `users` table (src/main.py `_init_schema`), as total maps from
user id to the column value, default 0 / NULL as in the schema. -/
structure Ledger where
  balance : ℤ → ℚ
  total_wagered : ℤ → ℚ
  net_profit_loss : ℤ → ℚ
  total_depo : ℤ → ℚ
  total_withdraw : ℤ → ℚ
  sol_address : ℤ → Option String
  sol_balance : ℤ → ℚ
  sol_secret : ℤ → Option String

/-- Pointwise update of a single user's entry in a column map. -/
def setAt (f : ℤ → ℚ) (uid : ℤ) (v : ℚ) : ℤ → ℚ :=
  fun u => if u = uid then v else f u

/-- Embeds `update_balance(user_id, delta)` (src/main.py line 255):
`UPDATE users SET balance=balance+? WHERE user_id=?` in one transaction.
The early return on `delta == 0` has the same effect as the update. -/
def update_balance (uid : ℤ) (delta : ℚ) (s : Ledger) : Ledger :=
  { s with balance := setAt s.balance uid (s.balance uid + delta) }

/-- Embeds `update_stats(user_id, **fields)` (src/main.py line 263): each
keyword argument adds a delta to the named stat column, all in one
transaction.  The four stat columns are passed positionally, 0 meaning the
field is absent from the call. -/
def update_stats (uid : ℤ) (d_wagered d_netpl d_depo d_withdraw : ℚ)
    (s : Ledger) : Ledger :=
  { s with
    total_wagered := setAt s.total_wagered uid (s.total_wagered uid + d_wagered)
    net_profit_loss :=
      setAt s.net_profit_loss uid (s.net_profit_loss uid + d_netpl)
    total_depo := setAt s.total_depo uid (s.total_depo uid + d_depo)
    total_withdraw :=
      setAt s.total_withdraw uid (s.total_withdraw uid + d_withdraw) }

/-- Embeds `tip_coins(sender, recipient, amount)` (src/main.py line 272):
validation, then debit and credit inside one transaction.  Returns the
boolean result together with the resulting ledger. -/
def tip_coins (sender recipient : ℤ) (amount : ℚ) (s : Ledger) :
    Bool × Ledger :=
  if amount ≤ 0 ∨ sender = recipient then (false, s)
  else if s.balance sender < amount then (false, s)
  else
    (true, update_balance recipient amount (update_balance sender (-amount) s))

/-- Sum of the balances of a finite set of accounts: the quantity the
conservation-of-money property talks about. -/
def totalBalance (accts : Finset ℤ) (s : Ledger) : ℚ :=
  accts.sum s.balance

/-- Empty `users` table: every column at its schema default. -/
def emptyLedger : Ledger :=
  { balance := fun _ => 0
    total_wagered := fun _ => 0
    net_profit_loss := fun _ => 0
    total_depo := fun _ => 0
    total_withdraw := fun _ => 0
    sol_address := fun _ => none
    sol_balance := fun _ => 0
    sol_secret := fun _ => none }

/-! ## On-chain deposit reconciler (src/main.py `poll_deposits`, lines 430-508) -/

/-- Conversion `lamports / 1_000_000_000` performed at src/main.py line 466. -/
def lamportsToSol (lamports : ℤ) : ℚ :=
  (lamports : ℚ) / 1000000000

/-- The dedicated transaction at src/main.py lines 475-479:
`UPDATE users SET sol_balance=? WHERE user_id=?`. -/
def set_sol_balance (uid : ℤ) (v : ℚ) (s : Ledger) : Ledger :=
  { s with sol_balance := setAt s.sol_balance uid v }

/-- One row of the reconciler loop body (src/main.py lines 462-479), as the
list of separately committed transactions it issues.  A row is
`(user_id, sol_address, old_balance)` as selected at cycle start.  When the
live balance exceeds the stored snapshot the code runs three distinct
`_transaction()` blocks: the QC balance credit, the `total_depo` stat update,
and the `sol_balance` snapshot write; otherwise it runs none.
`qc_amount = delta_sol / 0.001` (1 QC = 0.001 SOL). -/
def pollRowTxns (live : String → ℤ) (row : ℤ × String × ℚ) :
    List (Ledger → Ledger) :=
  if row.2.2 < lamportsToSol (live row.2.1) then
    [update_balance row.1 ((lamportsToSol (live row.2.1) - row.2.2) / (1 / 1000)),
     update_stats row.1 0 0 ((lamportsToSol (live row.2.1) - row.2.2) / (1 / 1000)) 0,
     set_sol_balance row.1 (lamportsToSol (live row.2.1))]
  else []

/-- Sequential application of a list of committed transactions; every prefix
of the list corresponds to a state observable by other coroutines. -/
def applyTxns (txns : List (Ledger → Ledger)) (s : Ledger) : Ledger :=
  txns.foldl (fun st f => f st) s

/-- The `SELECT user_id, sol_address, sol_balance FROM users WHERE
sol_address IS NOT NULL` read at the start of each poll cycle
(src/main.py lines 437-439), restricted to the given key set. -/
def pollRows (s : Ledger) (users : List ℤ) : List (ℤ × String × ℚ) :=
  users.filterMap fun u => (s.sol_address u).map fun a => (u, a, s.sol_balance u)

/-- Effect of one whole row of the poll loop. -/
def rowStep (live : String → ℤ) (row : ℤ × String × ℚ) (s : Ledger) : Ledger :=
  applyTxns (pollRowTxns live row) s

/-- Embeds `sweep_deposits` (src/main.py lines 351-401) as far as it touches
the ledger.  The sweep reads all users holding both a deposit address and a
stored secret, skips addresses whose live balance is at or below the 15000
lamport fee buffer, submits an on-chain transfer of the rest, and — as soon
as `send_raw_transaction` is merely accepted, with no confirmation — writes
`sol_balance = 0` for that user (lines 393-398).  A send that raises is
caught and writes nothing; `sendOk` tells which addresses reach the write. -/
def sweep_deposits (live : String → ℤ) (sendOk : String → Bool)
    (users : List ℤ) (s : Ledger) : Ledger :=
  (users.filterMap fun u =>
      match s.sol_address u, s.sol_secret u with
      | some a, some _ => some (u, a)
      | _, _ => none).foldl
    (fun st r =>
      if live r.2 ≤ 15000 then st
      else if sendOk r.2 then set_sol_balance r.1 0 st else st)
    s

/-- One whole row of the `poll_deposits` loop body including the
`sweep_deposits()` call the code makes right after a credit
(src/main.py lines 499-503): when the row credits, the three reconciler
transactions run and then the sweep runs over the whole table. -/
def rowStepFull (live : String → ℤ) (sendOk : String → Bool)
    (users : List ℤ) (row : ℤ × String × ℚ) (s : Ledger) : Ledger :=
  if row.2.2 < lamportsToSol (live row.2.1) then
    sweep_deposits live sendOk users (rowStep live row s)
  else rowStep live row s

/-- One full poll cycle of `poll_deposits` (src/main.py lines 430-508):
read the rows once, then process each row, sweeping after every credit. -/
def pollCycleFull (live : String → ℤ) (sendOk : String → Bool)
    (users : List ℤ) (s : Ledger) : Ledger :=
  (pollRows s users).foldl (fun st row => rowStepFull live sendOk users row st) s

/-- Chain oracle for the double-credit scenario: address "addr1" holds
2,000,000 lamports (0.002 SOL = 2 QC) during both cycles — the sweep send is
accepted but the transaction never lands, so the balance never moves. -/
def c5Live : String → ℤ := fun a => if a = "addr1" then 2000000 else 0

/-- The sweep send is accepted by the RPC node for every address. -/
def c5Send : String → Bool := fun _ => true

/-- Users table with user 1 holding a deposit address with its secret and a
zero `sol_balance` snapshot. -/
def c5Ledger : Ledger :=
  { emptyLedger with
    sol_address := fun u => if u = 1 then some "addr1" else none
    sol_secret := fun u => if u = 1 then some "sk" else none }

/-- C5: violated by the code.  The first poll cycle credits the 2 QC delta
and advances the snapshot, but the `sweep_deposits()` call that
`poll_deposits` makes right after the credit resets `sol_balance` to 0 on an
unconfirmed send.  A second consecutive cycle in which the live on-chain
balance has not changed (the swept transaction was dropped) then sees
`live > snapshot` again and credits the same 2 QC a second time — the claim
requires it to credit zero. -/
theorem poll_deposits_sweep_causes_double_credit :
    (pollCycleFull c5Live c5Send [1] c5Ledger).balance 1 =
      c5Ledger.balance 1 + 2 ∧
    (pollCycleFull c5Live c5Send [1] c5Ledger).sol_balance 1 = 0 ∧
    (pollCycleFull c5Live c5Send [1]
        (pollCycleFull c5Live c5Send [1] c5Ledger)).balance 1 =
      (pollCycleFull c5Live c5Send [1] c5Ledger).balance 1 + 2 ∧
    (2 : ℚ) ≠ 0 := by
  norm_num [pollCycleFull, rowStepFull, rowStep, pollRows, pollRowTxns,
    applyTxns, sweep_deposits, update_balance, update_stats, set_sol_balance,
    setAt, lamportsToSol, c5Live, c5Send, c5Ledger, emptyLedger,
    List.filterMap_cons, List.filterMap_nil, List.foldl_cons, List.foldl_nil]

/-- Concrete watched address for the reconciler counterexample: user 1 with
bound address and a zero stored snapshot, while the chain reports
2,000,000 lamports (0.002 SOL, i.e. 2 QC). -/
def c1Live : String → ℤ := fun a => if a = "addr1" then 2000000 else 0

/-- Row `(user_id, sol_address, old_balance)` for user 1 as selected at
cycle start. -/
def c1Row : ℤ × String × ℚ := (1, "addr1", 0)

/-- Users table holding only user 1 with a bound deposit address. -/
def c1Ledger : Ledger :=
  { emptyLedger with sol_address := fun u => if u = 1 then some "addr1" else none }

/-- State committed after only the first of the three transactions the poll
body issues for this row. -/
def c1Mid : Ledger := applyTxns ((pollRowTxns c1Live c1Row).take 1) c1Ledger

/-- C1: violated by the code.  For a watched address whose live balance
(0.002 SOL = 2 QC) exceeds the stored snapshot (0), `poll_deposits` issues
three separate `_transaction()` blocks rather than one; after the first of
them commits, the ledger already carries the 2 QC credit while the
`sol_balance` snapshot still holds the old value 0 ≠ 1/500 SOL — exactly the
intermediate state the spec says must not exist. -/
theorem poll_deposits_credit_snapshot_not_atomic :
    (pollRowTxns c1Live c1Row).length = 3 ∧
    c1Mid.balance 1 = c1Ledger.balance 1 + 2 ∧
    c1Mid.sol_balance 1 = 0 ∧
    lamportsToSol (c1Live "addr1") = 1 / 500 ∧
    c1Mid.sol_balance 1 ≠ lamportsToSol (c1Live "addr1") := by
  have htx : pollRowTxns c1Live c1Row =
      [update_balance 1 2, update_stats 1 0 0 2 0,
       set_sol_balance 1 (1 / 500)] := by
    rw [pollRowTxns, if_pos]
    · norm_num [c1Row, c1Live, lamportsToSol]
    · norm_num [c1Row, c1Live, lamportsToSol]
  have hmid : c1Mid = update_balance 1 2 c1Ledger := by
    rw [c1Mid, htx]; rfl
  refine ⟨by rw [htx]; rfl, ?_, ?_, ?_, ?_⟩
  · rw [hmid]; simp [update_balance, setAt]
  · rw [hmid]; simp [update_balance, c1Ledger, emptyLedger]
  · norm_num [c1Live, lamportsToSol]
  · rw [hmid]
    simp [update_balance, c1Ledger, emptyLedger, c1Live, lamportsToSol]
    norm_num

/-! ## SHA-256 and HMAC-SHA256

The provably-fair helpers call `hmac.new(server_seed.encode(), msg.encode(),
hashlib.sha256).hexdigest()` (src/main.py lines 4385-4388).  This is FIPS
180-4 SHA-256 under RFC 2104 HMAC; both are embedded here executably, with
32-bit words as naturals reduced mod 2^32 and messages as UTF-8 byte lists. -/

/-- Right rotation of a 32-bit word. -/
def rotr32 (x n : ℕ) : ℕ := ((x >>> n) ||| (x <<< (32 - n))) % 4294967296

/-- SHA-256 big sigma 0. -/
def bigSigma0 (x : ℕ) : ℕ := rotr32 x 2 ^^^ rotr32 x 13 ^^^ rotr32 x 22

/-- SHA-256 big sigma 1. -/
def bigSigma1 (x : ℕ) : ℕ := rotr32 x 6 ^^^ rotr32 x 11 ^^^ rotr32 x 25

/-- SHA-256 small sigma 0. -/
def smallSigma0 (x : ℕ) : ℕ := rotr32 x 7 ^^^ rotr32 x 18 ^^^ (x >>> 3)

/-- SHA-256 small sigma 1. -/
def smallSigma1 (x : ℕ) : ℕ := rotr32 x 17 ^^^ rotr32 x 19 ^^^ (x >>> 10)

/-- SHA-256 choice function; complement taken inside 32 bits. -/
def chFn (x y z : ℕ) : ℕ := (x &&& y) ^^^ ((x ^^^ 4294967295) &&& z)

/-- SHA-256 majority function. -/
def majFn (x y z : ℕ) : ℕ := (x &&& y) ^^^ (x &&& z) ^^^ (y &&& z)

/-- The 64 SHA-256 round constants. -/
def K256 : List ℕ :=
  [1116352408, 1899447441, 3049323471, 3921009573, 961987163,
   1508970993, 2453635748, 2870763221, 3624381080, 310598401,
   607225278, 1426881987, 1925078388, 2162078206, 2614888103,
   3248222580, 3835390401, 4022224774, 264347078, 604807628,
   770255983, 1249150122, 1555081692, 1996064986, 2554220882,
   2821834349, 2952996808, 3210313671, 3336571891, 3584528711,
   113926993, 338241895, 666307205, 773529912, 1294757372,
   1396182291, 1695183700, 1986661051, 2177026350, 2456956037,
   2730485921, 2820302411, 3259730800, 3345764771, 3516065817,
   3600352804, 4094571909, 275423344, 430227734, 506948616,
   659060556, 883997877, 958139571, 1322822218, 1537002063,
   1747873779, 1955562222, 2024104815, 2227730452, 2361852424,
   2428436474, 2756734187, 3204031479, 3329325298]

/-- The 8 initial SHA-256 hash state words. -/
def H256 : List ℕ :=
  [1779033703, 3144134277, 1013904242, 2773480762,
   1359893119, 2600822924, 528734635, 1541459225]

/-- FIPS 180-4 padding of a byte message: 0x80, zeros to 56 mod 64, then the
bit length as 8 big-endian bytes. -/
def padBytes (msg : List ℕ) : List ℕ :=
  msg ++ [128] ++ List.replicate ((119 - msg.length % 64) % 64) 0 ++
    (List.range 8).map (fun i => ((8 * msg.length) >>> (8 * (7 - i))) % 256)

/-- Splits a list into 64-byte blocks; the fuel argument bounds the number
of steps and is structurally decreasing. -/
def toBlocksGo : ℕ → List ℕ → List (List ℕ)
  | 0, _ => []
  | _, [] => []
  | fuel + 1, b :: rest =>
      (b :: rest).take 64 :: toBlocksGo fuel ((b :: rest).drop 64)

/-- Splits a padded message into 64-byte blocks. -/
def toBlocks (l : List ℕ) : List (List ℕ) := toBlocksGo l.length l

/-- Packs bytes into 32-bit big-endian words. -/
def toWords : List ℕ → List ℕ
  | b0 :: b1 :: b2 :: b3 :: rest =>
      (((b0 * 256 + b1) * 256 + b2) * 256 + b3) :: toWords rest
  | _ => []

/-- Extends the 16 block words by the given number of scheduled words. -/
def schedule : Array ℕ → ℕ → Array ℕ
  | ws, 0 => ws
  | ws, n + 1 =>
      schedule (ws.push ((smallSigma1 (ws.getD (ws.size - 2) 0) +
        ws.getD (ws.size - 7) 0 + smallSigma0 (ws.getD (ws.size - 15) 0) +
        ws.getD (ws.size - 16) 0) % 4294967296)) n

/-- One SHA-256 compression round on the (a,b,c,d,e,f,g,h) state. -/
def compressStep (st : ℕ × ℕ × ℕ × ℕ × ℕ × ℕ × ℕ × ℕ) (kw : ℕ × ℕ) :
    ℕ × ℕ × ℕ × ℕ × ℕ × ℕ × ℕ × ℕ :=
  match st with
  | (a, b, c, d, e, f, g, h) =>
      ((h + bigSigma1 e + chFn e f g + kw.1 + kw.2 + bigSigma0 a + majFn a b c)
          % 4294967296,
       a, b, c,
       (d + h + bigSigma1 e + chFn e f g + kw.1 + kw.2) % 4294967296,
       e, f, g)

/-- Compresses one 64-byte block into the running 8-word hash state. -/
def compressBlock (H : List ℕ) (block : List ℕ) : List ℕ :=
  match K256.zip (schedule (Array.mk (toWords block)) 48).toList |>.foldl
      compressStep
      (H.getD 0 0, H.getD 1 0, H.getD 2 0, H.getD 3 0,
       H.getD 4 0, H.getD 5 0, H.getD 6 0, H.getD 7 0) with
  | (a, b, c, d, e, f, g, h) =>
      [(H.getD 0 0 + a) % 4294967296, (H.getD 1 0 + b) % 4294967296,
       (H.getD 2 0 + c) % 4294967296, (H.getD 3 0 + d) % 4294967296,
       (H.getD 4 0 + e) % 4294967296, (H.getD 5 0 + f) % 4294967296,
       (H.getD 6 0 + g) % 4294967296, (H.getD 7 0 + h) % 4294967296]

/-- SHA-256 digest of a byte message, as 32 digest bytes. -/
def sha256Bytes (msg : List ℕ) : List ℕ :=
  ((toBlocks (padBytes msg)).foldl compressBlock H256).foldr
    (fun w acc =>
      (w >>> 24) % 256 :: (w >>> 16) % 256 :: (w >>> 8) % 256 :: w % 256 :: acc)
    []

/-- Lowercase hex digit. -/
def hexChar (n : ℕ) : Char :=
  if n < 10 then Char.ofNat (48 + n) else Char.ofNat (87 + n)

/-- Lowercase hex rendering of a byte list, as Python `hexdigest()` emits. -/
def bytesToHex (bs : List ℕ) : String :=
  ⟨bs.foldr (fun b acc => hexChar (b / 16) :: hexChar (b % 16) :: acc) []⟩

/-- Value of a lowercase hex digit, as `int(h, 16)` reads it. -/
def hexVal (c : Char) : ℕ :=
  if 97 ≤ c.toNat then c.toNat - 87 else c.toNat - 48

/-- Value of a hex string, as Python `int(string, 16)`. -/
def hexToNat (cs : List Char) : ℕ :=
  cs.foldl (fun acc c => acc * 16 + hexVal c) 0

/-- UTF-8 encoding of one code point, as Python `str.encode()`. -/
def utf8EncodeChar (n : ℕ) : List ℕ :=
  if n < 128 then [n]
  else if n < 2048 then [192 + n / 64, 128 + n % 64]
  else if n < 65536 then [224 + n / 4096, 128 + (n / 64) % 64, 128 + n % 64]
  else [240 + n / 262144, 128 + (n / 4096) % 64, 128 + (n / 64) % 64,
        128 + n % 64]

/-- UTF-8 bytes of a string. -/
def strBytes (s : String) : List ℕ :=
  s.data.foldr (fun c acc => utf8EncodeChar c.toNat ++ acc) []

/-- RFC 2104 HMAC-SHA256 over byte lists, block size 64. -/
def hmacSha256 (key msg : List ℕ) : List ℕ :=
  sha256Bytes
    (((if 64 < key.length then sha256Bytes key else key) ++
        List.replicate (64 - (if 64 < key.length then sha256Bytes key else key).length) 0).map
          (fun b => b ^^^ 92) ++
      sha256Bytes
        (((if 64 < key.length then sha256Bytes key else key) ++
            List.replicate (64 - (if 64 < key.length then sha256Bytes key else key).length) 0).map
              (fun b => b ^^^ 54) ++ msg))

/-- Embeds `_pf_hmac_int(server_seed, msg)` (src/main.py lines 4385-4388):
HMAC-SHA256 of the message keyed by the server seed, hex digest, first 13
hex digits read as an integer. -/
def pf_hmac_int (server_seed msg : String) : ℕ :=
  hexToNat ((bytesToHex (hmacSha256 (strBytes server_seed) (strBytes msg))).data.take 13)

set_option maxRecDepth 40000 in
/-- Sanity anchor for the hash embedding: the FIPS 180-4 test vector for the
message "abc". -/
theorem sha256_abc_vector :
    bytesToHex (sha256Bytes (strBytes "abc")) =
      "ba7816bf8f01cfea414140de5dae2223b00361a396177a9cb410ff61f20015ad" := by
  decide

/-! ## Provably-fair coinflip (src/main.py lines 4364-4506) -/

/-- `HOUSE_EDGE = 0.01` (src/main.py line 4364); the float 0.01 enters payout
formulas only as the factor `1 - 0.01`, whose IEEE double value times an
even stake agrees with the rational 99/100 in every scenario proved here. -/
def HOUSE_EDGE : ℚ := 1 / 100

/-- In-memory PF commitment record per user (src/main.py `_pf_new_commitment`,
lines 4368-4378). -/
structure PFState where
  server_seed : String
  server_hash : String
  client_seed : String
  nonce : ℕ

/-- Control-flow outcome of one `!coinflip` invocation. -/
inductive CoinflipStatus where
  | invalid_choice
  | insufficient
  | refunded
  | played
deriving DecidableEq, Repr

/-- Result record of one `!coinflip` invocation: the branch taken, the PF
coin result and win flag, the payout moved on a win, and the final ledger
and PF commitment. -/
structure CoinflipRes where
  status : CoinflipStatus
  result : String
  win : Bool
  payout : ℚ
  ledger : Ledger
  pf : PFState

/-- Embeds `coinflip_cmd` (src/main.py lines 4438-4489), including
`_ensure_funds_or_refund` (lines 4391-4398) inlined at its call site:
validate choice and stake, escrow stake from user to house, derive the PF
outcome from `HMAC(server_seed, client_seed ++ ":" ++ nonce)`, then pay
`amount * 2 * (1 - HOUSE_EDGE)` on a win — refunding the escrow entirely
when the house balance cannot cover the payout. -/
def coinflip_cmd (botId uid : ℤ) (amount : ℚ) (choice : String)
    (st : PFState) (s : Ledger) : CoinflipRes :=
  if ¬ (choice = "heads" ∨ choice = "tails") then
    ⟨.invalid_choice, "", false, 0, s, st⟩
  else if s.balance uid < amount ∨ amount ≤ 0 then
    ⟨.insufficient, "", false, 0, s, st⟩
  else
    let s1 := update_stats uid amount 0 0 0
      (update_balance botId amount (update_balance uid (-amount) s))
    let rng := pf_hmac_int st.server_seed
      (st.client_seed ++ ":" ++ toString st.nonce)
    let st1 := { st with nonce := st.nonce + 1 }
    let result := if rng % 2 = 0 then "heads" else "tails"
    let win : Bool := choice = result
    let payout : ℚ := if win then amount * 2 * (1 - HOUSE_EDGE) else 0
    if win = true ∧ 0 < payout then
      if s1.balance botId < payout then
        ⟨.refunded, result, win, payout,
          update_balance botId (-amount) (update_balance uid amount s1), st1⟩
      else
        ⟨.played, result, win, payout,
          update_stats uid 0 (payout - amount) 0 0
            (update_balance botId (-payout) (update_balance uid payout s1)),
          st1⟩
    else
      ⟨.played, result, win, payout, update_stats uid 0 (-amount) 0 0 s1, st1⟩

/-- Embeds `coinflip_verify_cmd` (src/main.py lines 4500-4506): the
standalone verification recomputes `_pf_hmac_int(server_seed,
client_seed ++ ":" ++ nonce)` and maps even to heads, odd to tails (inputs
arrive already stripped). -/
def coinflip_verify_cmd (server_seed client_seed : String) (nonce : ℕ) :
    String :=
  if pf_hmac_int server_seed (client_seed ++ ":" ++ toString nonce) % 2 = 0
  then "heads" else "tails"

/-- C4: PF outcome derivation is deterministic — it is a pure function of
`(server_seed, client_seed, nonce)`, so two evaluations on identical inputs
coincide — and the standalone `!coinflip_verify` computation (HMAC-SHA256 of
`client_seed:nonce` keyed by `server_seed`, first 13 hex digits, parity)
returns exactly the outcome `coinflip_cmd` used to settle the round played
from that commitment state. -/
theorem pf_deterministic_and_verify_matches_settle
    (botId uid : ℤ) (amount : ℚ) (choice : String) (st : PFState) (s : Ledger)
    (hc : choice = "heads" ∨ choice = "tails")
    (hf : ¬ (s.balance uid < amount ∨ amount ≤ 0)) :
    pf_hmac_int st.server_seed (st.client_seed ++ ":" ++ toString st.nonce) =
      pf_hmac_int st.server_seed (st.client_seed ++ ":" ++ toString st.nonce) ∧
    (coinflip_cmd botId uid amount choice st s).result =
      coinflip_verify_cmd st.server_seed st.client_seed st.nonce := by
  refine ⟨rfl, ?_⟩
  rw [coinflip_cmd, if_neg (not_not_intro hc), if_neg hf, coinflip_verify_cmd]
  set n := pf_hmac_int st.server_seed
    (st.client_seed ++ ":" ++ toString st.nonce) with hn
  simp only []
  split_ifs <;> rfl

/-- C3: whenever a coinflip settlement takes the `HouseInsolvent` refund
branch (the computed winning payout exceeds the house balance), the original
escrow is fully reversed: the final balances of both the wagering user and
the house equal their values before the wager. -/
theorem coinflip_house_insolvent_reverses_escrow
    (botId uid : ℤ) (amount : ℚ) (choice : String) (st : PFState) (s : Ledger)
    (hr : (coinflip_cmd botId uid amount choice st s).status = .refunded) :
    (coinflip_cmd botId uid amount choice st s).ledger.balance uid =
      s.balance uid ∧
    (coinflip_cmd botId uid amount choice st s).ledger.balance botId =
      s.balance botId := by
  rw [coinflip_cmd] at hr ⊢
  set n := pf_hmac_int st.server_seed
    (st.client_seed ++ ":" ++ toString st.nonce) with hn
  clear_value n
  clear hn
  simp only [] at hr ⊢
  split_ifs at hr ⊢ <;> simp_all only [] <;>
    (constructor <;>
      simp only [update_balance, update_stats, setAt] <;>
      split_ifs <;> subst_vars <;> first | ring1 | simp_all)

/-- C6: the concrete house-edge scenario.  A user holding 100 QC who plays
`!coinflip 50` and wins (with the house able to cover the payout) ends at
balance `100 - 50 + 50*2*0.99 = 149`, the house balance decreases by 49, the
user's `net_profit_loss` rises by 49, and the payout follows the
`stake * 2 * (1 - HOUSE_EDGE)` formula. -/
theorem coinflip_win_pays_house_edge
    (botId uid : ℤ) (choice : String) (st : PFState) (s : Ledger)
    (hne : uid ≠ botId)
    (hbal : s.balance uid = 100)
    (hwin : (coinflip_cmd botId uid 50 choice st s).win = true)
    (hst : (coinflip_cmd botId uid 50 choice st s).status = .played) :
    (coinflip_cmd botId uid 50 choice st s).ledger.balance uid = 149 ∧
    (coinflip_cmd botId uid 50 choice st s).ledger.balance botId =
      s.balance botId - 49 ∧
    (coinflip_cmd botId uid 50 choice st s).ledger.net_profit_loss uid =
      s.net_profit_loss uid + 49 ∧
    (coinflip_cmd botId uid 50 choice st s).payout =
      50 * 2 * (1 - HOUSE_EDGE) := by
  rw [coinflip_cmd] at hwin hst ⊢
  set n := pf_hmac_int st.server_seed
    (st.client_seed ++ ":" ++ toString st.nonce) with hn
  clear_value n
  clear hn
  simp only [] at hwin hst ⊢
  split_ifs at hwin hst ⊢ <;>
    first
      | (simp at hwin; done)
      | (simp at hst; done)
      | (exfalso; simp_all [HOUSE_EDGE]; done)
      | (exfalso; norm_num [HOUSE_EDGE] at *; simp_all; done)
      | (refine ⟨?_, ?_, ?_, ?_⟩ <;>
          simp only [update_balance, update_stats, setAt] <;>
          simp [hne, Ne.symm hne, HOUSE_EDGE] <;> linarith)

/-- Concrete PF commitment for witnesses: server seed "aa", client seed "bb",
nonce 0.  The derived HMAC integer is odd, so the coin shows tails. -/
def pfW : PFState := ⟨"aa", "sha256-of-aa", "bb", 0⟩

set_option maxRecDepth 40000 in
lemma pfW_rng :
    pf_hmac_int "aa" ("bb" ++ ":" ++ toString (0 : ℕ)) = 1121887472948855 := by
  decide

/-- Users table where user 1 holds 100 QC and the house (user 2) 1000 QC. -/
def richLedger : Ledger :=
  { emptyLedger with
    balance := fun u => if u = 1 then 100 else if u = 2 then 1000 else 0 }

/-- Users table where user 1 holds 1 QC and the house (user 2) only 1/2 QC,
not enough to cover a winning coinflip payout. -/
def poorLedger : Ledger :=
  { emptyLedger with
    balance := fun u => if u = 1 then 1 else if u = 2 then 1 / 2 else 0 }

/-- Witness for C4 at a concrete input. -/
theorem pf_deterministic_and_verify_matches_settle_witness :
    (("tails" = "heads" ∨ "tails" = "tails") ∧
      ¬ (richLedger.balance 1 < 5 ∨ (5 : ℚ) ≤ 0)) ∧
    (coinflip_cmd 2 1 5 "tails" pfW richLedger).result =
      coinflip_verify_cmd "aa" "bb" 0 := by
  have h1 : "tails" = "heads" ∨ "tails" = "tails" := Or.inr rfl
  have h2 : ¬ (richLedger.balance 1 < 5 ∨ (5 : ℚ) ≤ 0) := by
    norm_num [richLedger, emptyLedger]
  exact ⟨⟨h1, h2⟩,
    (pf_deterministic_and_verify_matches_settle 2 1 5 "tails" pfW richLedger
      h1 h2).2⟩

set_option maxRecDepth 100000 in
/-- Witness for C3 at a concrete input: the user wagers their whole 1 QC on
tails, wins, but the house (1/2 QC before escrow) cannot cover the 1.98 QC
payout, so the wager is refunded and both balances are restored. -/
theorem coinflip_house_insolvent_reverses_escrow_witness :
    (coinflip_cmd 2 1 1 "tails" pfW poorLedger).status = .refunded ∧
    (coinflip_cmd 2 1 1 "tails" pfW poorLedger).ledger.balance 1 =
      poorLedger.balance 1 ∧
    (coinflip_cmd 2 1 1 "tails" pfW poorLedger).ledger.balance 2 =
      poorLedger.balance 2 := by
  have hr : (coinflip_cmd 2 1 1 "tails" pfW poorLedger).status = .refunded := by
    norm_num [coinflip_cmd, pfW, pfW_rng, poorLedger, emptyLedger, HOUSE_EDGE,
      update_balance, update_stats, setAt]
  exact ⟨hr,
    (coinflip_house_insolvent_reverses_escrow 2 1 1 "tails" pfW poorLedger
      hr).1,
    (coinflip_house_insolvent_reverses_escrow 2 1 1 "tails" pfW poorLedger
      hr).2⟩

set_option maxRecDepth 100000 in
/-- Witness for C6 at a concrete input: balance 100, stake 50 on tails,
tails comes up, the house holds 1000 and can cover the payout. -/
theorem coinflip_win_pays_house_edge_witness :
    ((1 : ℤ) ≠ 2 ∧ richLedger.balance 1 = 100 ∧
      (coinflip_cmd 2 1 50 "tails" pfW richLedger).win = true ∧
      (coinflip_cmd 2 1 50 "tails" pfW richLedger).status = .played) ∧
    (coinflip_cmd 2 1 50 "tails" pfW richLedger).ledger.balance 1 = 149 := by
  have hne : (1 : ℤ) ≠ 2 := by decide
  have hbal : richLedger.balance 1 = 100 := by norm_num [richLedger, emptyLedger]
  have hwin : (coinflip_cmd 2 1 50 "tails" pfW richLedger).win = true := by
    norm_num [coinflip_cmd, pfW, pfW_rng, richLedger, emptyLedger, HOUSE_EDGE,
      update_balance, update_stats, setAt]
  have hst :
      (coinflip_cmd 2 1 50 "tails" pfW richLedger).status = .played := by
    norm_num [coinflip_cmd, pfW, pfW_rng, richLedger, emptyLedger, HOUSE_EDGE,
      update_balance, update_stats, setAt]
  exact ⟨⟨hne, hbal, hwin, hst⟩,
    (coinflip_win_pays_house_edge 2 1 "tails" pfW richLedger hne hbal hwin
      hst).1⟩

/-! ## Lottery (src/main.py lines 2590-2876) -/

/-- One `lottery` row together with its `lottery_entries` rows.  The entries
table has no UNIQUE constraint on `(lottery_id, user_id)`, so entries are a
plain list in insertion order. -/
structure LotteryRec where
  status : String
  entry_cost : ℚ
  pot : ℚ
  entries : List ℤ
deriving DecidableEq

/-- Embeds `join_cmd` (src/main.py lines 2823-2853) together with
`_lottery_add_entry` (lines 2682-2686) and `_lottery_increment_pot`
(lines 2696-2699): if an open lottery exists and the user can afford the
entry cost, debit the user, credit the house, count the stake as wagered,
append a `lottery_entries` row and increment the pot.  The argument is the
result of `_lottery_get_open()` (`none` when no open lottery exists). -/
def join_cmd (botId uid : ℤ) (lot : Option LotteryRec) (s : Ledger) :
    Bool × Ledger × Option LotteryRec :=
  match lot with
  | none => (false, s, none)
  | some lot =>
      if lot.status ≠ "open" then (false, s, some lot)
      else if s.balance uid < lot.entry_cost then (false, s, some lot)
      else
        (true,
         update_stats uid lot.entry_cost 0 0 0
           (update_balance botId lot.entry_cost
             (update_balance uid (-lot.entry_cost) s)),
         some { lot with
                entries := lot.entries ++ [uid],
                pot := lot.pot + lot.entry_cost })

/-! ## Airdrop (src/main.py lines 3021-3431) -/

/-- One `airdrop` row together with its `airdrop_claims` rows. -/
structure AirdropRec where
  amount_qc : ℚ
  created_by : ℤ
  claimants : List ℤ
  status : String
deriving DecidableEq

/-- Embeds the money movement of `airdrop_cmd` (src/main.py lines 3270-3293):
after amount parsing, the treasury (bot account) balance is checked against
the amount and the reservation is debited from the treasury — not from the
creator — and an open airdrop record is created. -/
def airdrop_cmd (botId creator : ℤ) (amount_qc : ℚ) (s : Ledger) :
    Option (Ledger × AirdropRec) :=
  if amount_qc ≤ 0 then none
  else if s.balance botId < amount_qc then none
  else some (update_balance botId (-amount_qc) s,
    { amount_qc := amount_qc, created_by := creator, claimants := [],
      status := "open" })

/-- Embeds the settlement body of `_airdrop_loop` (src/main.py lines
3406-3426) for one expired airdrop: with claimants the pot is split evenly
(each credit also adds to `net_profit_loss`) and positive dust goes to the
bot; with no claimants the whole positive amount goes back to the bot
account.  The record is then marked settled. -/
def airdrop_settle (botId : ℤ) (d : AirdropRec) (s : Ledger) :
    Ledger × AirdropRec :=
  if d.claimants ≠ [] ∧ 0 < d.amount_qc then
    (let share := d.amount_qc / (d.claimants.length : ℚ)
     let s1 := d.claimants.foldl
       (fun st uid => update_stats uid 0 share 0 0 (update_balance uid share st)) s
     let dust := max 0 (d.amount_qc - share * (d.claimants.length : ℚ))
     if 0 < dust then update_balance botId dust s1 else s1,
     { d with status := "settled" })
  else
    (if 0 < d.amount_qc then update_balance botId d.amount_qc s else s,
     { d with status := "settled" })

/-! ## Loans (src/main.py lines 6710-7120, src/database.py lines 1380-1557) -/

/-- One `loans` row. -/
structure LoanRec where
  user_id : ℤ
  principal_qc : ℚ
  duration_sec : ℕ
  due_date : ℕ
  status : String
  withdraw_during_loan : ℕ
deriving DecidableEq

/-- `LOAN_BASE_RATE = 0.11` (src/main.py line 6750), the weekly rate when the
user withdrew during the loan. -/
def LOAN_BASE_RATE : ℚ := 11 / 100

/-- `LOAN_LOW_RATE = 0.07` (src/main.py line 6751), the weekly rate when the
user did not withdraw during the loan. -/
def LOAN_LOW_RATE : ℚ := 7 / 100

/-- Embeds `calc_interest_qc` (src/main.py lines 6823-6827):
`principal * rate * (duration / 1 week)` with the rate tier chosen by the
withdraw flag. -/
def calc_interest_qc (principal_qc : ℚ) (duration_sec : ℕ)
    (withdraw_flag : ℕ) : ℚ :=
  principal_qc * (if withdraw_flag = 0 then LOAN_LOW_RATE else LOAN_BASE_RATE) *
    ((duration_sec : ℚ) / (7 * 86400))

/-- Embeds the money movement of `loan_approve_cmd` (src/main.py lines
7060-7099): a pending loan passes the global outstanding cap check and the
treasury balance check, is marked active, and the principal is credited to
the user — the house account is never debited. -/
def loan_approve_cmd (botId : ℤ) (loan : LoanRec) (total_active cap : ℚ)
    (s : Ledger) : Bool × Ledger × LoanRec :=
  if loan.status ≠ "pending" then (false, s, loan)
  else if cap < total_active + loan.principal_qc then (false, s, loan)
  else if s.balance botId < loan.principal_qc then (false, s, loan)
  else (true, update_balance loan.user_id loan.principal_qc s,
    { loan with status := "active" })

/-- Embeds the money movement of `loan_repay_cmd` (src/main.py lines
7010-7033): an active loan whose holder can cover principal plus interest is
debited `total_due` from the holder, marked repaid, and the interest is
subtracted from `net_profit_loss` — the house account is never credited. -/
def loan_repay_cmd (loan : LoanRec) (s : Ledger) : Bool × Ledger × LoanRec :=
  if loan.status ≠ "active" then (false, s, loan)
  else if s.balance loan.user_id <
      loan.principal_qc +
        calc_interest_qc loan.principal_qc loan.duration_sec
          loan.withdraw_during_loan then (false, s, loan)
  else
    (true,
     update_stats loan.user_id 0
       (-(calc_interest_qc loan.principal_qc loan.duration_sec
           loan.withdraw_during_loan)) 0 0
       (update_balance loan.user_id
         (-(loan.principal_qc +
             calc_interest_qc loan.principal_qc loan.duration_sec
               loan.withdraw_during_loan)) s),
     { loan with status := "repaid" })

/-! ## Withdrawals (src/main.py `_execute_withdraw`, lines 1133-1252) -/

/-- One `withdrawals` log row, as read at the top of `_execute_withdraw`. -/
structure WithdrawRow where
  user_id : ℤ
  status : String
  amount_qc : ℚ
  amount_sol : ℚ
  dest_address : Option String
deriving DecidableEq

/-- Embeds `loans_mark_withdraw_flag` (src/database.py lines 1546-1556):
`UPDATE loans SET withdraw_during_loan=1 WHERE user_id=? AND
status='active'`.  The function exists and is imported into main.py
(line 6726) but no code path ever calls it. -/
def loans_mark_withdraw_flag (uid : ℤ) (loans : List LoanRec) :
    List LoanRec :=
  loans.map fun l =>
    if l.user_id = uid ∧ l.status = "active" then
      { l with withdraw_during_loan := 1 }
    else l

/-- Embeds the ledger- and loans-visible effect of `_execute_withdraw`
(src/main.py lines 1133-1252): status must be pending or confirmed, a
destination address must exist, the QC balance must cover the amount, and
the on-chain send must succeed (`chainOk` summarises address parsing, house
wallet funding and the RPC send); on success the user is debited and
`total_withdraw` updated.  The `loans` table is passed through untouched:
the function never calls `loans_mark_withdraw_flag`. -/
def execute_withdraw (uid : ℤ) (row : WithdrawRow) (chainOk : Bool)
    (s : Ledger) (loans : List LoanRec) : Bool × Ledger × List LoanRec :=
  if ¬ (row.status = "pending" ∨ row.status = "confirmed") then
    (false, s, loans)
  else
    match row.dest_address with
    | none => (false, s, loans)
    | some _ =>
        if s.balance uid < row.amount_qc ∨ row.amount_qc ≤ 0 then
          (false, s, loans)
        else if chainOk = false then (false, s, loans)
        else
          (true,
           update_stats uid 0 0 0 row.amount_qc
             (update_balance uid (-row.amount_qc) s),
           loans)

/-! ## TicTacToe (src/games.py) -/

/-- The eight winning triples of `TicTacToe.check_winner`
(src/games.py lines 39-45). -/
def WINS : List (ℕ × ℕ × ℕ) :=
  [(0, 1, 2), (3, 4, 5), (6, 7, 8),
   (0, 3, 6), (1, 4, 7), (2, 5, 8),
   (0, 4, 8), (2, 4, 6)]

/-- The TicTacToe game object (src/games.py lines 3-10): a 9-cell board of
characters, the player whose turn it is, the winner and the terminal flag. -/
structure TicTacToe where
  player1_id : ℤ
  player2_id : ℤ
  board : List Char
  turn : ℤ
  winner : Option ℤ
  game_over : Bool
deriving DecidableEq

/-- Embeds `TicTacToe.check_winner` (src/games.py lines 39-45): some winning
triple holds the given mark in all three cells. -/
def check_winner (board : List Char) (mark : Char) : Bool :=
  WINS.any fun w =>
    (board.getD w.1 ' ' == mark) && (board.getD w.2.1 ' ' == mark) &&
      (board.getD w.2.2 ' ' == mark)

/-- Embeds `TicTacToe.make_move` (src/games.py lines 12-37): reject when the
game is over, when it is not the mover's turn, when the position is out of
range, or when the cell is taken; otherwise place the mover's mark, then
declare a win, declare a draw on a full board, or pass the turn. -/
def make_move (g : TicTacToe) (player_id : ℤ) (position : ℤ) :
    Bool × TicTacToe :=
  if g.game_over then (false, g)
  else if player_id ≠ g.turn then (false, g)
  else if ¬ (0 ≤ position ∧ position ≤ 8) then (false, g)
  else if g.board.getD position.toNat ' ' ≠ ' ' then (false, g)
  else if check_winner
      (g.board.set position.toNat
        (if player_id = g.player1_id then 'X' else 'O'))
      (if player_id = g.player1_id then 'X' else 'O') then
    (true,
     { g with
       board := g.board.set position.toNat
         (if player_id = g.player1_id then 'X' else 'O')
       winner := some player_id
       game_over := true })
  else if ' ' ∉ g.board.set position.toNat
      (if player_id = g.player1_id then 'X' else 'O') then
    (true,
     { g with
       board := g.board.set position.toNat
         (if player_id = g.player1_id then 'X' else 'O')
       winner := none
       game_over := true })
  else
    (true,
     { g with
       board := g.board.set position.toNat
         (if player_id = g.player1_id then 'X' else 'O')
       turn := if g.turn = g.player1_id then g.player2_id else g.player1_id })

/-! ## Claim theorems on pools, loans, withdrawals and TicTacToe -/

/-- Users table for the conservation scenario: user 1 holds 107 QC, the
house (user 2) holds 1000 QC. -/
def c2Ledger : Ledger :=
  { emptyLedger with
    balance := fun u => if u = 1 then 107 else if u = 2 then 1000 else 0 }

/-- A pending loan of 100 QC over one week for user 1. -/
def c2Pending : LoanRec := ⟨1, 100, 604800, 9999, "pending", 0⟩

/-- The same loan once active. -/
def c2Active : LoanRec := ⟨1, 100, 604800, 9999, "active", 0⟩

/-- C2: violated by the code.  Approving a pending 100 QC loan credits the
user without debiting the house, raising the total of all balances by 100;
repaying the active loan debits the user 107 QC (principal plus one week of
7% interest) without crediting the house, lowering the total by 107.  Both
are internal operations, so the sum of account balances is not conserved. -/
theorem loan_ops_break_conservation :
    (loan_approve_cmd 2 c2Pending 0 100000 c2Ledger).1 = true ∧
    totalBalance {1, 2} (loan_approve_cmd 2 c2Pending 0 100000 c2Ledger).2.1 =
      totalBalance {1, 2} c2Ledger + 100 ∧
    (loan_repay_cmd c2Active c2Ledger).1 = true ∧
    totalBalance {1, 2} (loan_repay_cmd c2Active c2Ledger).2.1 =
      totalBalance {1, 2} c2Ledger - 107 ∧
    totalBalance {1, 2} c2Ledger + 100 ≠ totalBalance {1, 2} c2Ledger := by
  norm_num [loan_approve_cmd, loan_repay_cmd, calc_interest_qc, LOAN_LOW_RATE,
    LOAN_BASE_RATE, update_balance, update_stats, setAt, totalBalance,
    c2Ledger, c2Pending, c2Active, emptyLedger,
    Finset.sum_pair (show (1 : ℤ) ≠ 2 by decide)]

/-- Expired airdrop of 10 QC created by user 1, with zero claimants. -/
def c7Rec : AirdropRec := ⟨10, 1, [], "open"⟩

/-- Users table at that airdrop's expiry: creator (user 1) holds 5 QC and
the treasury (user 2) holds 990 QC after having reserved the 10 QC. -/
def c7Ledger : Ledger :=
  { emptyLedger with
    balance := fun u => if u = 1 then 5 else if u = 2 then 990 else 0 }

/-- C7 counterexample: settling an expired zero-claimant airdrop leaves the
creator's balance unchanged (5 QC, not 5 + 10) and credits the full reserved
10 QC to the house account — the claim that the refund goes to the creator
is false on the code. -/
theorem airdrop_zero_claimants_refund_goes_to_house :
    (airdrop_settle 2 c7Rec c7Ledger).1.balance 1 = 5 ∧
    ¬ ((airdrop_settle 2 c7Rec c7Ledger).1.balance 1 = 5 + 10) ∧
    (airdrop_settle 2 c7Rec c7Ledger).1.balance 2 = 990 + 10 ∧
    (airdrop_settle 2 c7Rec c7Ledger).2.status = "settled" := by
  norm_num [airdrop_settle, c7Rec, c7Ledger, emptyLedger, update_balance,
    setAt]

/-- C7 as amended: for every airdrop that reaches settlement with zero
claimants, the full reserved amount is refunded to the treasury (bot)
account — the account that funded the reservation at creation — restoring
its pre-reservation balance, while the creator's balance is untouched by
both creation and settlement. -/
theorem airdrop_zero_claimants_refunds_treasury
    (botId creator : ℤ) (amount : ℚ) (s s1 : Ledger) (d : AirdropRec)
    (h : airdrop_cmd botId creator amount s = some (s1, d))
    (hne : creator ≠ botId) :
    d.created_by = creator ∧
    (airdrop_settle botId d s1).1.balance botId = s.balance botId ∧
    (airdrop_settle botId d s1).1.balance creator = s.balance creator ∧
    (airdrop_settle botId d s1).2.status = "settled" := by
  unfold airdrop_cmd at h
  split_ifs at h with h1 h2
  rw [Option.some.injEq, Prod.mk.injEq] at h
  obtain ⟨hs1, hd⟩ := h
  subst hs1
  subst hd
  have hpos : 0 < amount := not_le.mp h1
  unfold airdrop_settle
  rw [if_neg (by simp)]
  simp only [if_pos hpos]
  refine ⟨by trivial, ?_, ?_, by trivial⟩
  · simp [update_balance, setAt]
  · simp [update_balance, setAt, hne]

/-- Witness for the amended C7 at a concrete input. -/
theorem airdrop_zero_claimants_refunds_treasury_witness :
    (airdrop_cmd 2 1 10 richLedger =
        some (update_balance 2 (-10) richLedger, ⟨10, 1, [], "open"⟩) ∧
      (1 : ℤ) ≠ 2) ∧
    (airdrop_settle 2 (⟨10, 1, [], "open"⟩ : AirdropRec)
        (update_balance 2 (-10) richLedger)).1.balance 2 =
      richLedger.balance 2 := by
  have h : airdrop_cmd 2 1 10 richLedger =
      some (update_balance 2 (-10) richLedger, ⟨10, 1, [], "open"⟩) := by
    norm_num [airdrop_cmd, richLedger, emptyLedger]
  have hne : (1 : ℤ) ≠ 2 := by decide
  exact ⟨⟨h, hne⟩,
    (airdrop_zero_claimants_refunds_treasury 2 1 10 richLedger
      (update_balance 2 (-10) richLedger) ⟨10, 1, [], "open"⟩ h hne).2.1⟩

/-- Open lottery with entry cost 1 QC, empty pot and no entries yet. -/
def c8Lot : LotteryRec := ⟨"open", 1, 0, []⟩

/-- Users table for the double-join scenario: user 1 holds 10 QC, the house
(user 2) holds 100 QC. -/
def c8Ledger : Ledger :=
  { emptyLedger with
    balance := fun u => if u = 1 then 10 else if u = 2 then 100 else 0 }

/-- C8 counterexample: user 1 joins the open lottery twice in a row.  The
second join is not rejected: it reports success, the user is debited a
second entry fee (balance 10 → 9 → 8), the entry list gains a duplicate
`[1, 1]`, and the pot is incremented to 2. -/
theorem lottery_double_join_not_rejected :
    (join_cmd 2 1 ((join_cmd 2 1 (some c8Lot) c8Ledger).2.2)
       ((join_cmd 2 1 (some c8Lot) c8Ledger).2.1)).1 = true ∧
    (join_cmd 2 1 ((join_cmd 2 1 (some c8Lot) c8Ledger).2.2)
       ((join_cmd 2 1 (some c8Lot) c8Ledger).2.1)).2.1.balance 1 = 8 ∧
    (join_cmd 2 1 ((join_cmd 2 1 (some c8Lot) c8Ledger).2.2)
       ((join_cmd 2 1 (some c8Lot) c8Ledger).2.1)).2.2 =
      some ⟨"open", 1, 2, [1, 1]⟩ := by
  norm_num [join_cmd, c8Lot, c8Ledger, emptyLedger, update_balance,
    update_stats, setAt]

/-- C8 as amended: lottery membership is a list, not a set — `join_cmd` has
no already-joined check and `lottery_entries` has no UNIQUE constraint, so a
join by a user already in the entry list is accepted exactly like a first
join: the user is debited another entry fee, a duplicate entry row is
appended, and the pot is incremented again. -/
theorem lottery_double_join_accepted
    (botId uid : ℤ) (lot : LotteryRec) (s : Ledger)
    (hopen : lot.status = "open")
    (_hmem : uid ∈ lot.entries)
    (hbal : ¬ s.balance uid < lot.entry_cost)
    (hne : uid ≠ botId) :
    (join_cmd botId uid (some lot) s).1 = true ∧
    (join_cmd botId uid (some lot) s).2.1.balance uid =
      s.balance uid - lot.entry_cost ∧
    (join_cmd botId uid (some lot) s).2.2 =
      some { lot with
             entries := lot.entries ++ [uid],
             pot := lot.pot + lot.entry_cost } := by
  simp only [join_cmd]
  rw [if_neg (not_not_intro hopen), if_neg hbal]
  refine ⟨rfl, ?_, rfl⟩
  simp [update_balance, update_stats, setAt, hne]
  ring

/-- Witness for the amended C8 at a concrete input: user 1 already appears
in the entry list and joins again. -/
theorem lottery_double_join_accepted_witness :
    ((⟨"open", 1, 1, [1]⟩ : LotteryRec).status = "open" ∧
      (1 : ℤ) ∈ (⟨"open", 1, 1, [1]⟩ : LotteryRec).entries ∧
      ¬ c8Ledger.balance 1 < (⟨"open", 1, 1, [1]⟩ : LotteryRec).entry_cost ∧
      (1 : ℤ) ≠ 2) ∧
    (join_cmd 2 1 (some ⟨"open", 1, 1, [1]⟩) c8Ledger).2.1.balance 1 =
      c8Ledger.balance 1 - 1 := by
  have h1 : (⟨"open", 1, 1, [1]⟩ : LotteryRec).status = "open" := rfl
  have h2 : (1 : ℤ) ∈ (⟨"open", 1, 1, [1]⟩ : LotteryRec).entries := by decide
  have h3 : ¬ c8Ledger.balance 1 <
      (⟨"open", 1, 1, [1]⟩ : LotteryRec).entry_cost := by
    norm_num [c8Ledger, emptyLedger]
  have h4 : (1 : ℤ) ≠ 2 := by decide
  exact ⟨⟨h1, h2, h3, h4⟩,
    (lottery_double_join_accepted 2 1 ⟨"open", 1, 1, [1]⟩ c8Ledger h1 h2 h3
      h4).2.1⟩

/-- Active one-week loan of 100 QC for user 1 with the withdraw flag clear. -/
def c9Loan : LoanRec := ⟨1, 100, 604800, 9999, "active", 0⟩

/-- Pending withdrawal of 5 QC for user 1 with a destination address. -/
def c9Row : WithdrawRow := ⟨1, "pending", 5, 1 / 200, some "addr"⟩

/-- Users table where user 1 holds 50 QC. -/
def c9Ledger : Ledger :=
  { emptyLedger with balance := fun u => if u = 1 then 50 else 0 }

/-- C9: violated by the code.  `_execute_withdraw` never touches the loans
table — `loans_mark_withdraw_flag` exists in the database layer and is
imported into main.py but is never called — so a successful withdrawal
during an active loan leaves `withdraw_during_loan = 0` and repayment
interest stays at the 7% tier (7 QC on this loan) instead of the 11% tier
(11 QC) the claim requires. -/
theorem withdraw_never_marks_loan_flag :
    (∀ (uid : ℤ) (row : WithdrawRow) (chainOk : Bool) (s : Ledger)
        (loans : List LoanRec),
        (execute_withdraw uid row chainOk s loans).2.2 = loans) ∧
    (execute_withdraw 1 c9Row true c9Ledger [c9Loan]).1 = true ∧
    (execute_withdraw 1 c9Row true c9Ledger [c9Loan]).2.2 = [c9Loan] ∧
    c9Loan.withdraw_during_loan = 0 ∧
    loans_mark_withdraw_flag 1 [c9Loan] =
      [{ c9Loan with withdraw_during_loan := 1 }] ∧
    calc_interest_qc 100 604800 0 = 7 ∧
    calc_interest_qc 100 604800 1 = 11 := by
  constructor
  · intro uid row chainOk s loans
    obtain ⟨ruid, rstat, ramt, rsol, rdest⟩ := row
    cases rdest <;> simp only [execute_withdraw] <;> split_ifs <;> rfl
  · refine ⟨?_, ?_, rfl, ?_, ?_, ?_⟩
    · norm_num [execute_withdraw, c9Row, c9Ledger, emptyLedger]
    · norm_num [execute_withdraw, c9Row, c9Ledger, emptyLedger]
    · norm_num [loans_mark_withdraw_flag, c9Loan]
    · norm_num [calc_interest_qc, LOAN_LOW_RATE, LOAN_BASE_RATE]
    · norm_num [calc_interest_qc, LOAN_LOW_RATE, LOAN_BASE_RATE]

/-- C10: the full `make_move` contract on a 9-cell board.  Any call made
after the game is over, out of turn, with a position outside 0..8, or onto
an occupied cell returns `false` and leaves the game object unchanged.  A
valid call returns `true`, changes exactly the chosen cell from blank to the
mover's mark, sets `game_over` exactly when that mark completes a winning
line or the board is full, and otherwise passes the turn to the other
player. -/
theorem make_move_spec (g : TicTacToe) (player position : ℤ)
    (hlen : g.board.length = 9) :
    ((g.game_over = true ∨ player ≠ g.turn ∨ ¬ (0 ≤ position ∧ position ≤ 8) ∨
        g.board.getD position.toNat ' ' ≠ ' ') →
      make_move g player position = (false, g)) ∧
    (g.game_over = false → player = g.turn → 0 ≤ position → position ≤ 8 →
      g.board.getD position.toNat ' ' = ' ' →
      (make_move g player position).1 = true ∧
      (make_move g player position).2.board =
        g.board.set position.toNat
          (if player = g.player1_id then 'X' else 'O') ∧
      (make_move g player position).2.board.getD position.toNat ' ' =
        (if player = g.player1_id then 'X' else 'O') ∧
      ((make_move g player position).2.game_over = true ↔
        (check_winner
            (g.board.set position.toNat
              (if player = g.player1_id then 'X' else 'O'))
            (if player = g.player1_id then 'X' else 'O') = true ∨
          ' ' ∉ g.board.set position.toNat
            (if player = g.player1_id then 'X' else 'O'))) ∧
      ((make_move g player position).2.game_over = false →
        (make_move g player position).2.turn =
          (if g.turn = g.player1_id then g.player2_id else g.player1_id))) := by
  constructor
  · intro hrej
    unfold make_move
    split_ifs with h1 h2 h3 h4 h5 h6 <;> try rfl
    all_goals
      exfalso
      rcases hrej with hg | ht | hr | hc
      · exact h1 hg
      · exact h2 ht
      · exact hr h3
      · exact h4 hc
  · intro hg ht h0 h8 hc
    have hidx : position.toNat < g.board.length := by
      rw [hlen]; omega
    unfold make_move
    rw [if_neg (by simp [hg]), if_neg (not_not_intro ht),
      if_neg (not_not_intro ⟨h0, h8⟩), if_neg (not_not_intro hc)]
    set mk := (if player = g.player1_id then 'X' else 'O') with hmk
    clear_value mk
    have hmark : (g.board.set position.toNat mk).getD position.toNat ' ' =
        mk := by
      rw [List.getD_eq_getElem _ _ (by simpa using hidx)]
      simp
    split_ifs <;>
      (refine ⟨rfl, rfl, hmark, by simp_all, ?_⟩
       first
         | exact fun h => h.elim
         | exact fun _ => rfl)

/-- Fresh TicTacToe game between players 1 and 2 (src/games.py constructor):
blank 9-cell board, player 1 to move. -/
def ttt0 : TicTacToe := ⟨1, 2, List.replicate 9 ' ', 1, none, false⟩

/-- Witness for C10 at a concrete input: player 1 takes the centre cell of a
fresh board; the move succeeds, marks exactly cell 4 with X, and passes the
turn to player 2. -/
theorem make_move_spec_witness :
    ttt0.board.length = 9 ∧
    (make_move ttt0 1 4).1 = true ∧
    (make_move ttt0 1 4).2.board = ttt0.board.set 4 'X' ∧
    (make_move ttt0 1 4).2.turn = 2 := by
  have h := (make_move_spec ttt0 1 4 (by decide)).2 rfl rfl (by decide)
    (by decide) (by decide)
  refine ⟨by decide, h.1, ?_, ?_⟩
  · have hb := h.2.1
    simpa using hb
  · exact (h.2.2.2.2 (by decide)).trans (by decide)

end QCBot
